import Mathlib

/-!
Shallow embedding of the mersivx-shopify-admin-app credential-exchange
protocol, translated from the TypeScript sources:

* `app/routes/api.ticket.exchange.tsx` (one-time ticket exchange),
* `app/routes/api.merchant.configure.tsx` and
  `app/routes/api.merchant.get-config.tsx` (access-key issue/resolve),
* the external MongoDB GraphQL client (`api-client.server.ts`,
  session / ECommerceAppData / StoreData operations),
* the billing callback loader and the uninstall webhook.

Remote stores are modelled as explicit association lists; each route
handler becomes a pure function from store state (plus request inputs
and an explicit clock) to a result and a new store state.  JavaScript
truthiness tests on strings (`if (!x)`) are rendered as the
none-or-empty test that the code performs.
-/

namespace Spec2Proof

/-! ## Prisma side: `oneTimeTicket` and `merchantConfig` collections -/

/-- A row of the `oneTimeTicket` Prisma collection: `{ id, ticket, shop,
used, expiresAt }`.  Dates are modelled as natural-number epoch
milliseconds. -/
structure Ticket where
  id : Nat
  ticket : String
  shop : String
  used : Bool
  expiresAt : Nat
  deriving DecidableEq

/-- A row of the `merchantConfig` Prisma collection: `{ shop, accessToken,
apiKey, builderData }` (`shop` is the unique lookup key used by the
routes). -/
structure MerchantConfig where
  shop : String
  accessToken : String
  apiKey : String
  builderData : Option String
  deriving DecidableEq

/-- The Prisma-backed database state used by the ticket routes. -/
structure TicketStore where
  tickets : List Ticket
  configs : List MerchantConfig
  deriving DecidableEq

/-- `prisma.oneTimeTicket.findUnique({ where: { ticket } })`. -/
def ticketLookup (st : TicketStore) (t : String) : Option Ticket :=
  st.tickets.find? (fun r => r.ticket == t)

/-- `prisma.oneTimeTicket.update({ where: { id }, data: { used: true } })` —
note: an unconditional write, not guarded by `used == false`. -/
def markUsed (st : TicketStore) (i : Nat) : TicketStore :=
  { st with tickets :=
      st.tickets.map (fun r => if r.id = i then { r with used := true } else r) }

/-- `prisma.oneTimeTicket.delete({ where: { id } })`. -/
def deleteTicket (st : TicketStore) (i : Nat) : TicketStore :=
  { st with tickets := st.tickets.filter (fun r => !(r.id == i)) }

/-- `prisma.merchantConfig.findUnique({ where: { shop } })`. -/
def configLookup (st : TicketStore) (shop : String) : Option MerchantConfig :=
  st.configs.find? (fun c => c.shop == shop)

/-- Outcome of `POST /api/ticket/exchange` (`api.ticket.exchange.tsx`). -/
inductive ExchangeResult where
  | missingTicket
  | invalidTicket
  | expired
  | configNotFound
  | success (shop accessToken apiKey : String) (builderData : Option String)
  deriving DecidableEq

/-- HTTP status attached to each exchange outcome by the route. -/
def ExchangeResult.status : ExchangeResult → Nat
  | .missingTicket => 400
  | .invalidTicket => 401
  | .expired => 401
  | .configNotFound => 404
  | .success _ _ _ _ => 200

/-- The `action` of `api.ticket.exchange.tsx`: parse `{ ticket }`, look the
ticket up, reject absent/used tickets (401), delete-and-reject expired
tickets (401), otherwise mark the ticket used and fetch the merchant
config of the ticket's shop, failing 404 when it is absent. -/
def exchangeAction (st : TicketStore) (now : Nat) (body : Option String) :
    ExchangeResult × TicketStore :=
  match body with
  | none => (.missingTicket, st)
  | some t =>
    if t = "" then (.missingTicket, st)
    else
      match ticketLookup st t with
      | none => (.invalidTicket, st)
      | some r =>
        if r.used then (.invalidTicket, st)
        else if r.expiresAt < now then (.expired, deleteTicket st r.id)
        else
          let st2 := markUsed st r.id
          match configLookup st2 r.shop with
          | none => (.configNotFound, st2)
          | some c => (.success c.shop c.accessToken c.apiKey c.builderData, st2)

/-- The read half of the exchange handler (lines 22–36 of
`api.ticket.exchange.tsx`): the `findUnique` plus the used/expiry checks,
which happen strictly before the `used := true` write.  Returns the
ticket row exactly when the handler would proceed to the write half. -/
def exchangeReadPhase (st : TicketStore) (now : Nat) (t : String) : Option Ticket :=
  match ticketLookup st t with
  | none => none
  | some r => if r.used then none else if r.expiresAt < now then none else some r

/-- The write half of the exchange handler (lines 38–65): unconditionally
mark the row used, then fetch and return the merchant config.  A second
request that passed its own read phase re-enters here with the same row. -/
def exchangeWritePhase (st : TicketStore) (r : Ticket) :
    ExchangeResult × TicketStore :=
  let st2 := markUsed st r.id
  match configLookup st2 r.shop with
  | none => (.configNotFound, st2)
  | some c => (.success c.shop c.accessToken c.apiKey c.builderData, st2)

/-! ### Concrete fixtures for the ticket claims -/

/-- An unused ticket for `acme.example` expiring at time 1000. -/
def raceTicket : Ticket := ⟨1, "t1", "acme.example", false, 1000⟩

/-- Store holding `raceTicket` and the matching merchant config. -/
def raceStore : TicketStore :=
  ⟨[raceTicket], [⟨"acme.example", "shpat-token", "api-key", none⟩]⟩

/-- Store holding a ticket that is both already used and expired. -/
def usedExpiredStore : TicketStore :=
  ⟨[⟨7, "t7", "stale.example", true, 10⟩], []⟩

/-- Store holding an unused but expired ticket. -/
def expiredUnusedStore : TicketStore :=
  ⟨[⟨2, "t2", "old.example", false, 10⟩], []⟩

/-- Store holding a valid ticket whose shop has no merchant config. -/
def noConfigStore : TicketStore :=
  ⟨[⟨3, "t3", "ghost.example", false, 1000⟩], []⟩

/-! The claim theorems for the ticket routes are stated after all
definitions, in the theorem section below. -/

/-! ## External MongoDB GraphQL client (`api-client.server.ts`) -/

/-- A `ShopifySessions` document.  The offboarding path reads only the
lookup `key` and the tenant `shop`; the remaining persisted fields
(state, isOnline, accessToken) are carried for fidelity, while the
online-user identity fields play no role in any claim and are omitted. -/
structure SessionDoc where
  key : String
  shop : String
  state : String
  isOnline : Bool
  accessToken : String
  deriving DecidableEq

/-- The nested `data` object of an `ECommerceAppData` document. -/
structure EComPayload where
  shop : String
  dbName : Option String
  accessToken : Option String
  apiKey : Option String
  email : Option String
  paymentMode : Option String
  deriving DecidableEq

/-- An `ECommerceAppData` document: `{ key, ecomPlatform, command, data }`. -/
structure EComData where
  key : String
  ecomPlatform : String
  command : String
  data : EComPayload
  deriving DecidableEq

/-- The `StoreData` document found by the cross-database `ecomUrl` search:
`{ dbName, storeId }`. -/
structure StoreRecord where
  dbName : String
  storeId : String
  deriving DecidableEq

/-- State of the remote document store: the `ECommerceAppData` collection
(append-ordered), the cross-database `StoreData` index (`ecomUrl` to store
record), the per-database `StoreData.metadata` documents (`dbName` to
optional `paymentPlan`), and the `ShopifySessions` collection. -/
structure ExtStore where
  ecomData : List EComData
  stores : List (String × StoreRecord)
  planMeta : List (String × Option String)
  sessions : List SessionDoc
  deriving DecidableEq

/-- `findEComDataByShop`: query `ECommerceAppData` filtered by `data.shop`
and take `docs[0]`. -/
def findEComDataByShop (st : ExtStore) (shop : String) : Option EComData :=
  st.ecomData.find? (fun d => d.data.shop == shop)

/-- `findEComDataByKey`: query `ECommerceAppData` filtered by `key` and
take `docs[0]`. -/
def findEComDataByKey (st : ExtStore) (k : String) : Option EComData :=
  st.ecomData.find? (fun d => d.key == k)

/-- `findStoreByShopUrl`: wildcard cross-database search of `StoreData`
by `ecomUrl`; returns `{ dbName, storeId }` of `docs[0]` or null. -/
def findStoreByShopUrl (st : ExtStore) (shopUrl : String) : Option StoreRecord :=
  (st.stores.find? (fun p => p.1 == shopUrl)).map (fun p => p.2)

/-- `getStorePlan`: read `paymentPlan` from the store database's
`StoreData` document with `key = "metadata"`, defaulting to `"freemium"`
when the document or field is absent. -/
def getStorePlan (st : ExtStore) (db : String) : String :=
  match st.planMeta.find? (fun p => p.1 == db) with
  | none => "freemium"
  | some p => p.2.getD "freemium"

/-- `updateStorePlan`: `writeDocumentByKey` with `key = "metadata"` — an
upsert that merges `paymentPlan` into the existing metadata document. -/
def updateStorePlan (st : ExtStore) (db plan : String) : ExtStore :=
  { st with planMeta :=
      if st.planMeta.any (fun p => p.1 == db)
      then st.planMeta.map (fun p => if p.1 = db then (p.1, some plan) else p)
      else st.planMeta ++ [(db, some plan)] }

/-- `createEComData`: `writeDocumentByKey` with an empty key — the server
mints a fresh key and the new document is appended to the collection.  The
minted key is passed in explicitly (`newKey`) since key generation happens
server-side. -/
def createEComData (st : ExtStore) (newKey ecomPlatform command : String)
    (payload : EComPayload) : ExtStore :=
  { st with ecomData := st.ecomData ++ [⟨newKey, ecomPlatform, command, payload⟩] }

/-- Removal by key inside `deleteEComDataByShop`: `writeDocumentByKey`
with `delete: true` and the given key. -/
def deleteEComByKey (st : ExtStore) (k : String) : ExtStore :=
  { st with ecomData := st.ecomData.filter (fun d => !(d.key == k)) }

/-- `deleteEComDataByShop`: look up ONE document for the shop
(`findEComDataByShop`, i.e. `docs[0]`) and delete it by key; a no-op when
none exists. -/
def deleteEComDataByShop (st : ExtStore) (shop : String) : ExtStore :=
  match findEComDataByShop st shop with
  | none => st
  | some existing => deleteEComByKey st existing.key

/-- `findSessionsByShop`: query `ShopifySessions` filtered by `shop`. -/
def findSessionsByShop (st : ExtStore) (shop : String) : List SessionDoc :=
  st.sessions.filter (fun s => s.shop == shop)

/-- `deleteSession`: `writeDocumentByKey` with `delete: true` on the
session key. -/
def deleteSession (st : ExtStore) (k : String) : ExtStore :=
  { st with sessions := st.sessions.filter (fun s => !(s.key == k)) }

/-- `deleteSessions`: delete each id in turn (the source fires them in
parallel via `Promise.all`; each delete touches only its own key). -/
def deleteSessions (st : ExtStore) (ks : List String) : ExtStore :=
  ks.foldl deleteSession st

/-- Modelled from the spec: the uninstall webhook variant that offboards a
tenant through the external document store is not under `src/` (only its
building blocks `findSessionsByShop`, `deleteSessions` and
`deleteEComDataByShop` are).  Per §4.5 it finds all SessionRecords for the
shop and deletes them, then deletes the tenant's AppDataRecord(s) via the
shop lookup. -/
def offboard (st : ExtStore) (shop : String) : ExtStore :=
  let st1 := deleteSessions st ((findSessionsByShop st shop).map (fun s => s.key))
  deleteEComDataByShop st1 shop

/-! ## Merchant configure (`api.merchant.configure.tsx`) -/

/-- The authenticated admin session consumed by the configure route:
`session.shop` and the possibly-absent `session.accessToken`. -/
structure AdminSession where
  shop : String
  accessToken : Option String
  deriving DecidableEq

/-- Modelled from the spec: `shopify.server.ts` (which defines the two
Shopify billing-plan name constants) is not under `src/`; the spec's
closed set of plan identifiers needs only that the two names are distinct
opaque strings. -/
def BASIC_PLAN : String := "Basic Plan"

/-- Modelled from the spec: the premium plan name constant from
`shopify.server.ts`, distinct from `BASIC_PLAN`. -/
def PREMIUM_PLAN : String := "Premium Plan"

/-- Outcome of `billing.check` in the configure route: either the
`{ hasActivePayment, appSubscriptions }` answer (subscription names in
order) or a thrown error, which the route swallows. -/
inductive BillingCheckOutcome where
  | ok (hasActivePayment : Bool) (subNames : List String)
  | failed
  deriving DecidableEq

/-- The `paymentMode` computation of the configure route: start from
`"freemium"`; when the billing check succeeds with an active payment and a
non-empty subscription list, map the first subscription name through
BASIC/PREMIUM; a thrown billing check leaves `"freemium"`. -/
def configurePaymentMode : BillingCheckOutcome → String
  | .failed => "freemium"
  | .ok hasActivePayment subNames =>
    match hasActivePayment, subNames with
    | true, sub :: _ =>
      if sub = BASIC_PLAN then "basic"
      else if sub = PREMIUM_PLAN then "premium"
      else "freemium"
    | _, _ => "freemium"

/-- Outcome of `POST /api/merchant/configure`. -/
inductive ConfigureResult where
  | unauthorized
  | missingEmail
  | ok (accessKey : String) (isNew : Bool)
  deriving DecidableEq

/-- HTTP status attached to each configure outcome by the route. -/
def ConfigureResult.status : ConfigureResult → Nat
  | .unauthorized => 401
  | .missingEmail => 400
  | .ok _ _ => 200

/-- The `action` of `api.merchant.configure.tsx`: authenticate; look up
whether a provisioned 3D store exists (`findStoreByShopUrl`).  If it does,
append a minimal `shopify_edit` record carrying only shop and dbName.  If
not, require `email` (400 otherwise), compute `paymentMode` from the
billing check, and append a `shopify-create` record carrying shop, the
session access token (`|| ""`), the env API key (`|| ""`), email and
paymentMode.  Either success answers `{ accessKey: newKey, isNew }`. -/
def configureAction (st : ExtStore) (session : Option AdminSession)
    (envApiKey : Option String) (email : Option String)
    (billing : BillingCheckOutcome) (freshKey : String) :
    ConfigureResult × ExtStore :=
  match session with
  | none => (.unauthorized, st)
  | some s =>
    match findStoreByShopUrl st s.shop with
    | some storeRecord =>
      (.ok freshKey false,
       createEComData st freshKey "shopify" "shopify_edit"
         ⟨s.shop, some storeRecord.dbName, none, none, none, none⟩)
    | none =>
      match email with
      | none => (.missingEmail, st)
      | some e =>
        if e = "" then (.missingEmail, st)
        else
          (.ok freshKey true,
           createEComData st freshKey "shopify" "shopify-create"
             ⟨s.shop, none, some (s.accessToken.getD ""), some (envApiKey.getD ""),
              some e, some (configurePaymentMode billing)⟩)

/-! ## Resolve (`api.merchant.get-config.tsx`) -/

/-- The JSON body answered by a successful resolve. -/
structure ResolvePayload where
  shop : String
  dbName : Option String
  accessToken : Option String
  apiKey : Option String
  email : Option String
  paymentMode : String
  plan : String
  isNew : Bool
  deriving DecidableEq

/-- Outcome of `POST /api/merchant/get-config`. -/
inductive ResolveResult where
  | missingKey
  | invalidKey
  | success (p : ResolvePayload)
  deriving DecidableEq

/-- HTTP status attached to each resolve outcome by the route. -/
def ResolveResult.status : ResolveResult → Nat
  | .missingKey => 400
  | .invalidKey => 401
  | .success _ => 200

/-- The `action` of `api.merchant.get-config.tsx`: parse `{ key }` (400
when absent/empty), look the record up by key (401 when none matches),
compute `dbName` as the embedded value if non-null else the
`findStoreByShopUrl` fallback else null, compute `plan` by reading
StorePlanMetadata when `dbName` is truthy (non-null, non-empty) else
`"freemium"`, and answer the record's fields with
`isNew = (command == "shopify-create")`. -/
def resolveAction (st : ExtStore) (body : Option String) : ResolveResult :=
  match body with
  | none => .missingKey
  | some k =>
    if k = "" then .missingKey
    else
      match findEComDataByKey st k with
      | none => .invalidKey
      | some config =>
        let dbName : Option String :=
          match config.data.dbName with
          | some d => some d
          | none => (findStoreByShopUrl st config.data.shop).map (fun r => r.dbName)
        let plan : String :=
          match dbName with
          | some d => if d = "" then "freemium" else getStorePlan st d
          | none => "freemium"
        .success ⟨config.data.shop, dbName, config.data.accessToken,
                  config.data.apiKey, config.data.email,
                  config.data.paymentMode.getD "freemium", plan,
                  config.command == "shopify-create"⟩

/-! ## Billing callback loader (`app.billing.callback` route) -/

/-- Outcome of the Shopify `GetBillingStatus` GraphQL query in the billing
callback: the list of `(name, status)` active subscriptions (empty when
the installation or list is absent), or a thrown error. -/
inductive BillingQueryOutcome where
  | ok (subs : List (String × String))
  | failed
  deriving DecidableEq

/-- `SHOPIFY_PLAN_TO_INTERNAL` lookup: Shopify plan name to internal key. -/
def shopifyPlanToInternal (p : String) : Option String :=
  if p = BASIC_PLAN then some "basic"
  else if p = PREMIUM_PLAN then some "premium"
  else none

/-- The loader's fallback branch: derive a plan from the live billing
query.  A failed query leaves the plan undetermined; an answer with no
subscriptions resolves `"freemium"`; otherwise the first subscription name
is mapped through BASIC/PREMIUM with unknown names resolving
`"freemium"`. -/
def planFromQuery : BillingQueryOutcome → Option String
  | .failed => none
  | .ok [] => some "freemium"
  | .ok ((nm, _) :: _) =>
    some (if nm = BASIC_PLAN then "basic"
          else if nm = PREMIUM_PLAN then "premium"
          else "freemium")

/-- The loader's `resolvedPlan`: the recognized `plan` query parameter
takes priority; otherwise fall back to the live query. -/
def resolvedPlanOf (planParam : Option String) (q : BillingQueryOutcome) :
    Option String :=
  match (match planParam with
         | none => none
         | some p => if p = "" then none else shopifyPlanToInternal p) with
  | some pl => some pl
  | none => planFromQuery q

/-- Where the billing callback redirects. -/
inductive CallbackRedirect where
  | login
  | adminApp (shop : String)
  deriving DecidableEq

/-- The billing callback `loader`: without a `shop` query parameter
redirect to login; otherwise resolve the plan (param first, live query as
fallback) and, when a plan was resolved AND a store record exists for the
shop, persist it via `updateStorePlan`; always redirect into the admin. -/
def billingCallbackLoader (st : ExtStore) (shopParam planParam : Option String)
    (q : BillingQueryOutcome) : CallbackRedirect × ExtStore :=
  match shopParam with
  | none => (.login, st)
  | some shop =>
    if shop = "" then (.login, st)
    else
      let st2 :=
        match resolvedPlanOf planParam q with
        | none => st
        | some pl =>
          match findStoreByShopUrl st shop with
          | none => st
          | some sr => updateStorePlan st sr.dbName pl
      (.adminApp shop, st2)

/-! ### Concrete fixtures for the external-store claims -/

/-- The empty external store. -/
def emptyExtStore : ExtStore := ⟨[], [], [], []⟩

/-- A store where `acme.example` already has a provisioned project and a
persisted plan. -/
def projStore : ExtStore :=
  ⟨[], [("acme.example", ⟨"db-acme", "store-1"⟩)], [("db-acme", some "basic")], []⟩

/-- A `shopify-create` record for the isolation claim. -/
def isoRecord : EComData :=
  ⟨"k1", "shopify", "shopify-create",
   ⟨"acme.example", none, some "tok", some "api", some "a@acme.example", some "basic"⟩⟩

/-- Store holding only `isoRecord`. -/
def isoStore : ExtStore := ⟨[isoRecord], [], [], []⟩

/-- An `edit` record pointing at `db-acme`, used by the resolve claim. -/
def editRecord : EComData :=
  ⟨"k9", "shopify", "shopify_edit",
   ⟨"acme.example", some "db-acme", none, none, none, none⟩⟩

/-- Store holding `editRecord` plus the project and plan metadata. -/
def resolveDemoStore : ExtStore :=
  ⟨[editRecord], [("acme.example", ⟨"db-acme", "store-1"⟩)],
   [("db-acme", some "premium")], []⟩

/-- First (older) AppDataRecord of the offboarding tenant. -/
def offRec1 : EComData :=
  ⟨"k1", "shopify", "shopify-create",
   ⟨"acme.example", none, some "tok1", some "api", some "a@acme.example",
    some "freemium"⟩⟩

/-- Second (newer) AppDataRecord of the same tenant, accumulated under the
append-only model. -/
def offRec2 : EComData :=
  ⟨"k2", "shopify", "shopify_edit",
   ⟨"acme.example", some "db-acme", none, none, none, none⟩⟩

/-- Offboarding fixture: two historical AppDataRecords, one session, a
provisioned project and plan metadata for the tenant. -/
def offStore : ExtStore :=
  ⟨[offRec1, offRec2], [("acme.example", ⟨"db-acme", "store-1"⟩)],
   [("db-acme", some "basic")], [⟨"sess1", "acme.example", "state1", false, "tok"⟩]⟩

/-! ## Helper lemmas -/

/-- The sequential handler is the composition of the two phases whenever
the read phase accepts the ticket; this justifies analysing interleaved
executions phase by phase. -/
theorem exchangeAction_eq_phases (st : TicketStore) (now : Nat) (t : String)
    (r : Ticket) (ht : t ≠ "") (hr : exchangeReadPhase st now t = some r) :
    exchangeAction st now (some t) = exchangeWritePhase st r := by
  unfold exchangeReadPhase at hr
  cases hfind : ticketLookup st t with
  | none => rw [hfind] at hr; exact Option.noConfusion hr
  | some r0 =>
    rw [hfind] at hr
    dsimp only at hr
    by_cases hu : r0.used = true
    · rw [if_pos hu] at hr; exact Option.noConfusion hr
    · rw [if_neg hu] at hr
      by_cases he : r0.expiresAt < now
      · rw [if_pos he] at hr; exact Option.noConfusion hr
      · rw [if_neg he] at hr
        injection hr with hr0
        subst hr0
        unfold exchangeAction exchangeWritePhase
        dsimp only
        rw [if_neg ht, hfind]
        dsimp only
        rw [if_neg hu, if_neg he]

/-- `markUsed` rewrites only the ticket collection, so a merchant-config
lookup after the write sees the same configs. -/
theorem configLookup_markUsed (st : TicketStore) (i : Nat) (s : String) :
    configLookup (markUsed st i) s = configLookup st s := rfl

/-- Appending an `ECommerceAppData` document leaves the `StoreData`
cross-database index untouched. -/
theorem findStoreByShopUrl_createEComData (st : ExtStore)
    (k p c : String) (pl : EComPayload) (u : String) :
    findStoreByShopUrl (createEComData st k p c pl) u
      = findStoreByShopUrl st u := rfl

/-- `find?` skips a prefix in which no element matches. -/
theorem find?_append_of_none {α : Type} (p : α → Bool) (l1 l2 : List α)
    (h : l1.find? p = none) : (l1 ++ l2).find? p = l2.find? p := by
  induction l1 with
  | nil => rfl
  | cons a t ih =>
    by_cases hp : p a = true
    · rw [List.find?_cons_of_pos t hp] at h; exact Option.noConfusion h
    · rw [List.find?_cons_of_neg t hp] at h
      rw [List.cons_append, List.find?_cons_of_neg _ hp]
      exact ih h

/-! ## Claim theorems: ticket routes -/

/-- C1: sequentially, the first exchange of an unused, unexpired ticket
succeeds and the second fails with InvalidCredential (401); but because the
handler is a plain read-then-write (the `used := true` update is not guarded
by "was unused"), two interleaved exchanges of the same ticket that both
pass the read phase before either performs the write phase BOTH return the
credential bundle — the single-use invariant is violated under the very
race the claim quantifies over. -/
theorem ticket_exchange_race_double_yield :
    (exchangeAction raceStore 500 (some "t1")).1
      = .success "acme.example" "shpat-token" "api-key" none
    ∧ (exchangeAction (exchangeAction raceStore 500 (some "t1")).2 500 (some "t1")).1
      = .invalidTicket
    ∧ ExchangeResult.invalidTicket.status = 401
    ∧ exchangeReadPhase raceStore 500 "t1" = some raceTicket
    ∧ (exchangeWritePhase raceStore raceTicket).1
      = .success "acme.example" "shpat-token" "api-key" none
    ∧ (exchangeWritePhase (exchangeWritePhase raceStore raceTicket).2 raceTicket).1
      = .success "acme.example" "shpat-token" "api-key" none := by decide

/-- C6 counterexample: a ticket that is expired but also already used fails
the `used` check first: the exchange reports InvalidCredential rather than
Expired, and the ticket is NOT deleted from the store — refuting the claim
that every expired ticket fails with Expired and is eagerly deleted. -/
theorem expired_used_ticket_not_deleted :
    (⟨7, "t7", "stale.example", true, 10⟩ : Ticket).expiresAt < 50
    ∧ exchangeAction usedExpiredStore 50 (some "t7") = (.invalidTicket, usedExpiredStore)
    ∧ (exchangeAction usedExpiredStore 50 (some "t7")).1 ≠ .expired
    ∧ ticketLookup (exchangeAction usedExpiredStore 50 (some "t7")).2 "t7"
      = some ⟨7, "t7", "stale.example", true, 10⟩ := by decide

/-- C6 (amended): for every ticket that is present and not yet used whose
`expiresAt` is earlier than the current time, the exchange fails with
Expired (HTTP 401) and the ticket is eagerly deleted from the store as part
of that failing call. -/
theorem exchange_expired_unused_deletes
    (st : TicketStore) (now : Nat) (t : String) (r : Ticket)
    (ht : t ≠ "") (hfind : ticketLookup st t = some r)
    (hused : r.used = false) (hexp : r.expiresAt < now) :
    exchangeAction st now (some t) = (.expired, deleteTicket st r.id)
    ∧ ExchangeResult.expired.status = 401 := by
  refine ⟨?_, rfl⟩
  simp [exchangeAction, ht, hfind, hused, hexp]

/-- C6 witness: the amended theorem applied to `expiredUnusedStore`. -/
theorem exchange_expired_unused_deletes_witness :
    exchangeAction expiredUnusedStore 50 (some "t2")
      = (.expired, deleteTicket expiredUnusedStore 2)
    ∧ ExchangeResult.expired.status = 401 :=
  exchange_expired_unused_deletes expiredUnusedStore 50 "t2"
    ⟨2, "t2", "old.example", false, 10⟩ (by decide) (by decide) rfl (by decide)

/-- C10: the ticket is marked used before the merchant-config lookup; when
no config exists for the ticket's shop the call fails with HTTP 404 while
the resulting store still has the ticket consumed (`used = true`) — the
flag is not rolled back, so the exchange is not atomic. -/
theorem exchange_marks_used_despite_missing_config
    (st : TicketStore) (now : Nat) (t : String) (r : Ticket)
    (ht : t ≠ "") (hfind : ticketLookup st t = some r)
    (hused : r.used = false) (hexp : ¬ r.expiresAt < now)
    (hcfg : configLookup st r.shop = none) :
    exchangeAction st now (some t) = (.configNotFound, markUsed st r.id)
    ∧ ExchangeResult.configNotFound.status = 404
    ∧ ∀ x ∈ (exchangeAction st now (some t)).2.tickets,
        x.id = r.id → x.used = true := by
  have hmain : exchangeAction st now (some t) = (.configNotFound, markUsed st r.id) := by
    simp [exchangeAction, ht, hfind, hused, hexp, configLookup_markUsed, hcfg]
  refine ⟨hmain, rfl, ?_⟩
  rw [hmain]
  intro x hx hid
  simp only [markUsed, List.mem_map] at hx
  obtain ⟨y, _, hxy⟩ := hx
  by_cases h : y.id = r.id
  · rw [if_pos h] at hxy; rw [← hxy]
  · rw [if_neg h] at hxy; rw [← hxy] at hid; exact absurd hid h

/-- C10 witness: the theorem applied to `noConfigStore`. -/
theorem exchange_marks_used_despite_missing_config_witness :
    exchangeAction noConfigStore 500 (some "t3")
      = (.configNotFound, markUsed noConfigStore 3)
    ∧ ExchangeResult.configNotFound.status = 404
    ∧ ∀ x ∈ (exchangeAction noConfigStore 500 (some "t3")).2.tickets,
        x.id = 3 → x.used = true :=
  exchange_marks_used_despite_missing_config noConfigStore 500 "t3"
    ⟨3, "t3", "ghost.example", false, 1000⟩ (by decide) (by decide) rfl
    (by decide) rfl

/-! ## Claim theorems: configure route -/

/-- C2: an authenticated configure call with no provisioned project fails
with MissingField (400) and creates no record when `email` is absent or
empty; otherwise it appends a fresh `shopify-create` AppDataRecord carrying
shop, accessToken, apiKey, email and the resolved paymentMode, answers
`{ accessKey: freshKey, isNew: true }`, and the minted key subsequently
resolves to a payload whose email equals the supplied one. -/
theorem configure_new_tenant_creates_record
    (st : ExtStore) (s : AdminSession) (envApiKey : Option String) (e : String)
    (billing : BillingCheckOutcome) (freshKey : String)
    (hstore : findStoreByShopUrl st s.shop = none) (he : e ≠ "")
    (hfresh : findEComDataByKey st freshKey = none) (hk : freshKey ≠ "") :
    configureAction st (some s) envApiKey none billing freshKey = (.missingEmail, st)
    ∧ configureAction st (some s) envApiKey (some "") billing freshKey
      = (.missingEmail, st)
    ∧ ConfigureResult.missingEmail.status = 400
    ∧ configureAction st (some s) envApiKey (some e) billing freshKey
      = (.ok freshKey true,
         createEComData st freshKey "shopify" "shopify-create"
           ⟨s.shop, none, some (s.accessToken.getD ""), some (envApiKey.getD ""),
            some e, some (configurePaymentMode billing)⟩)
    ∧ resolveAction (configureAction st (some s) envApiKey (some e) billing freshKey).2
        (some freshKey)
      = .success ⟨s.shop, none, some (s.accessToken.getD ""), some (envApiKey.getD ""),
                  some e, configurePaymentMode billing, "freemium", true⟩ := by
  have h4 : configureAction st (some s) envApiKey (some e) billing freshKey
      = (.ok freshKey true,
         createEComData st freshKey "shopify" "shopify-create"
           ⟨s.shop, none, some (s.accessToken.getD ""), some (envApiKey.getD ""),
            some e, some (configurePaymentMode billing)⟩) := by
    simp [configureAction, hstore, he]
  refine ⟨by simp [configureAction, hstore], by simp [configureAction, hstore],
    rfl, h4, ?_⟩
  rw [h4]
  have hfind2 : findEComDataByKey
      (createEComData st freshKey "shopify" "shopify-create"
        ⟨s.shop, none, some (s.accessToken.getD ""), some (envApiKey.getD ""),
         some e, some (configurePaymentMode billing)⟩) freshKey
      = some ⟨freshKey, "shopify", "shopify-create",
          ⟨s.shop, none, some (s.accessToken.getD ""), some (envApiKey.getD ""),
           some e, some (configurePaymentMode billing)⟩⟩ := by
    unfold findEComDataByKey createEComData
    dsimp only
    rw [find?_append_of_none _ _ _ hfresh]
    exact List.find?_cons_of_pos _ (by simp)
  simp [resolveAction, hk, hfind2, findStoreByShopUrl_createEComData, hstore]

/-- C2 witness: the theorem applied to the empty store with a basic-plan
billing answer. -/
theorem configure_new_tenant_creates_record_witness :
    configureAction emptyExtStore (some ⟨"acme.example", some "tok"⟩) (some "apikey")
      none (.ok true [BASIC_PLAN]) "k1" = (.missingEmail, emptyExtStore)
    ∧ configureAction emptyExtStore (some ⟨"acme.example", some "tok"⟩) (some "apikey")
      (some "") (.ok true [BASIC_PLAN]) "k1" = (.missingEmail, emptyExtStore)
    ∧ ConfigureResult.missingEmail.status = 400
    ∧ configureAction emptyExtStore (some ⟨"acme.example", some "tok"⟩) (some "apikey")
        (some "a@acme.example") (.ok true [BASIC_PLAN]) "k1"
      = (.ok "k1" true,
         createEComData emptyExtStore "k1" "shopify" "shopify-create"
           ⟨"acme.example", none, some "tok", some "apikey",
            some "a@acme.example", some "basic"⟩)
    ∧ resolveAction (configureAction emptyExtStore
          (some ⟨"acme.example", some "tok"⟩) (some "apikey")
          (some "a@acme.example") (.ok true [BASIC_PLAN]) "k1").2 (some "k1")
      = .success ⟨"acme.example", none, some "tok", some "apikey",
                  some "a@acme.example", "basic", "freemium", true⟩ :=
  configure_new_tenant_creates_record emptyExtStore ⟨"acme.example", some "tok"⟩
    (some "apikey") "a@acme.example" (.ok true [BASIC_PLAN]) "k1"
    rfl (by decide) rfl (by decide)

/-- C3: an authenticated configure call for a tenant whose project lookup
succeeds ignores any supplied email, appends a `shopify_edit` AppDataRecord
carrying only shop and dbName (all credential fields null), and answers
`{ accessKey: freshKey, isNew: false }`. -/
theorem configure_existing_project_edit_record
    (st : ExtStore) (s : AdminSession) (envApiKey : Option String)
    (email : Option String) (billing : BillingCheckOutcome) (freshKey : String)
    (sr : StoreRecord) (hstore : findStoreByShopUrl st s.shop = some sr) :
    configureAction st (some s) envApiKey email billing freshKey
      = (.ok freshKey false,
         createEComData st freshKey "shopify" "shopify_edit"
           ⟨s.shop, some sr.dbName, none, none, none, none⟩)
    ∧ configureAction st (some s) envApiKey email billing freshKey
      = configureAction st (some s) envApiKey none billing freshKey := by
  constructor
  · simp [configureAction, hstore]
  · simp [configureAction, hstore]

/-- C3 witness: the theorem applied to `projStore` with an email supplied
(and ignored). -/
theorem configure_existing_project_edit_record_witness :
    configureAction projStore (some ⟨"acme.example", some "tok"⟩) (some "apikey")
        (some "x@y.example") BillingCheckOutcome.failed "k-edit"
      = (.ok "k-edit" false,
         createEComData projStore "k-edit" "shopify" "shopify_edit"
           ⟨"acme.example", some "db-acme", none, none, none, none⟩)
    ∧ configureAction projStore (some ⟨"acme.example", some "tok"⟩) (some "apikey")
        (some "x@y.example") BillingCheckOutcome.failed "k-edit"
      = configureAction projStore (some ⟨"acme.example", some "tok"⟩) (some "apikey")
        none BillingCheckOutcome.failed "k-edit" :=
  configure_existing_project_edit_record projStore ⟨"acme.example", some "tok"⟩
    (some "apikey") (some "x@y.example") BillingCheckOutcome.failed "k-edit"
    ⟨"db-acme", "store-1"⟩ (by decide)

/-! ## Claim theorems: resolve route -/

/-- C4: for every resolve call matching an AppDataRecord, the answered
`dbName` is the value embedded in the record when present, else the
project lookup by the record's shop, else null; the plan is read from
StorePlanMetadata when the resolved dbName is known (where "known" is
formalized as the truthiness test the route performs: non-null and
non-empty) and defaults to `"freemium"` otherwise; and `isNew` is true
exactly when the record's command is the `shopify-create` variant. -/
theorem resolve_fields_dbname_plan_isnew
    (st : ExtStore) (k : String) (config : EComData)
    (hk : k ≠ "") (hfind : findEComDataByKey st k = some config) :
    ∃ p, resolveAction st (some k) = .success p
      ∧ p.shop = config.data.shop
      ∧ p.dbName = (match config.data.dbName with
          | some d => some d
          | none => (findStoreByShopUrl st config.data.shop).map (fun r => r.dbName))
      ∧ (∀ d, p.dbName = some d → d ≠ "" → p.plan = getStorePlan st d)
      ∧ ((p.dbName = none ∨ p.dbName = some "") → p.plan = "freemium")
      ∧ (p.isNew = true ↔ config.command = "shopify-create") := by
  cases hdb : config.data.dbName with
  | some d =>
    refine ⟨⟨config.data.shop, some d, config.data.accessToken, config.data.apiKey,
        config.data.email, config.data.paymentMode.getD "freemium",
        if d = "" then "freemium" else getStorePlan st d,
        config.command == "shopify-create"⟩, ?_, rfl, ?_, ?_, ?_, by simp⟩
    · simp [resolveAction, hk, hfind, hdb]
    · rfl
    · intro d0 h0 hne
      injection h0 with h0
      subst h0
      simp [if_neg hne]
    · rintro (h | h)
      · exact Option.noConfusion h
      · injection h with h
        subst h
        simp
  | none =>
    cases hfs : findStoreByShopUrl st config.data.shop with
    | none =>
      refine ⟨⟨config.data.shop, none, config.data.accessToken, config.data.apiKey,
          config.data.email, config.data.paymentMode.getD "freemium", "freemium",
          config.command == "shopify-create"⟩, ?_, rfl, ?_, ?_, ?_, by simp⟩
      · simp [resolveAction, hk, hfind, hdb, hfs]
      · rfl
      · intro d0 h0 hne
        exact Option.noConfusion h0
      · intro h
        rfl
    | some r =>
      refine ⟨⟨config.data.shop, some r.dbName, config.data.accessToken,
          config.data.apiKey, config.data.email,
          config.data.paymentMode.getD "freemium",
          if r.dbName = "" then "freemium" else getStorePlan st r.dbName,
          config.command == "shopify-create"⟩, ?_, rfl, ?_, ?_, ?_, by simp⟩
      · simp [resolveAction, hk, hfind, hdb, hfs]
      · rfl
      · intro d0 h0 hne
        injection h0 with h0
        subst h0
        simp [if_neg hne]
      · rintro (h | h)
        · exact Option.noConfusion h
        · injection h with h
          rw [h]
          simp

/-- C4 witness: the theorem applied to `resolveDemoStore`, whose record
embeds `dbName = "db-acme"` with plan metadata `"premium"`. -/
theorem resolve_fields_dbname_plan_isnew_witness :
    ∃ p, resolveAction resolveDemoStore (some "k9") = .success p
      ∧ p.shop = "acme.example"
      ∧ p.dbName = some "db-acme"
      ∧ (∀ d, p.dbName = some d → d ≠ "" → p.plan = getStorePlan resolveDemoStore d)
      ∧ ((p.dbName = none ∨ p.dbName = some "") → p.plan = "freemium")
      ∧ (p.isNew = true ↔ ("shopify_edit" : String) = "shopify-create") :=
  resolve_fields_dbname_plan_isnew resolveDemoStore "k9" editRecord
    (by decide) (by decide)

/-- C5: resolve answers HTTP 400 when the request body carries no key
(absent or empty), and HTTP 401 — not 404 — when no AppDataRecord matches
the supplied key. -/
theorem resolve_missing_and_invalid_key_statuses
    (st : ExtStore) (k : String) (hk : k ≠ "")
    (hnone : findEComDataByKey st k = none) :
    (resolveAction st none).status = 400
    ∧ (resolveAction st (some "")).status = 400
    ∧ resolveAction st (some k) = .invalidKey
    ∧ (resolveAction st (some k)).status = 401 := by
  have h3 : resolveAction st (some k) = .invalidKey := by
    simp [resolveAction, hk, hnone]
  exact ⟨rfl, rfl, h3, by rw [h3]; rfl⟩

/-- C5 witness: the theorem applied to the empty store and key `"nope"`. -/
theorem resolve_missing_and_invalid_key_statuses_witness :
    (resolveAction emptyExtStore none).status = 400
    ∧ (resolveAction emptyExtStore (some "")).status = 400
    ∧ resolveAction emptyExtStore (some "nope") = .invalidKey
    ∧ (resolveAction emptyExtStore (some "nope")).status = 401 :=
  resolve_missing_and_invalid_key_statuses emptyExtStore "nope" (by decide) rfl

/-! ## Claim theorems: billing callback, offboarding, isolation -/

/-- C8: at the billing callback the plan is resolved in priority order — a
present, recognized `plan` query parameter wins; otherwise the live billing
query decides, with an absent or unknown subscription resolving
`"freemium"` (and a failed query resolving nothing); the resolved plan is
persisted to StorePlanMetadata only when a store record exists for the
shop, and nothing is persisted when none exists. -/
theorem billing_callback_plan_resolution
    (st : ExtStore) (shop : String) (planParam : Option String)
    (q : BillingQueryOutcome) (hshop : shop ≠ "") :
    (∀ p pl, planParam = some p → shopifyPlanToInternal p = some pl →
        resolvedPlanOf planParam q = some pl)
    ∧ planFromQuery (.ok []) = some "freemium"
    ∧ (∀ nm stt rest, nm ≠ BASIC_PLAN → nm ≠ PREMIUM_PLAN →
        planFromQuery (.ok ((nm, stt) :: rest)) = some "freemium")
    ∧ ((planParam = none ∨ planParam = some "" ∨
        (∃ p, planParam = some p ∧ shopifyPlanToInternal p = none)) →
        resolvedPlanOf planParam q = planFromQuery q)
    ∧ (findStoreByShopUrl st shop = none →
        (billingCallbackLoader st (some shop) planParam q).2 = st)
    ∧ (∀ pl sr, resolvedPlanOf planParam q = some pl →
        findStoreByShopUrl st shop = some sr →
        (billingCallbackLoader st (some shop) planParam q).2
          = updateStorePlan st sr.dbName pl) := by
  refine ⟨?_, rfl, ?_, ?_, ?_, ?_⟩
  · intro p pl hp hmap
    subst hp
    unfold resolvedPlanOf
    dsimp only
    by_cases hpe : p = ""
    · subst hpe
      rw [show shopifyPlanToInternal "" = none from by decide] at hmap
      exact Option.noConfusion hmap
    · rw [if_neg hpe, hmap]
  · intro nm stt rest h1 h2
    simp [planFromQuery, h1, h2]
  · rintro (h | h | ⟨p, hp, hm⟩)
    · subst h; rfl
    · subst h; rfl
    · subst hp
      unfold resolvedPlanOf
      dsimp only
      by_cases hpe : p = ""
      · rw [if_pos hpe]
      · rw [if_neg hpe, hm]
  · intro h
    unfold billingCallbackLoader
    dsimp only
    rw [if_neg hshop]
    dsimp only
    cases resolvedPlanOf planParam q with
    | none => rfl
    | some pl => rw [h]
  · intro pl sr h1 h2
    unfold billingCallbackLoader
    dsimp only
    rw [if_neg hshop]
    dsimp only
    rw [h1, h2]

/-- C8 witness: the theorem applied at `projStore` with the basic-plan
query parameter and a failed live query. -/
theorem billing_callback_plan_resolution_witness :
    (∀ p pl, (some BASIC_PLAN : Option String) = some p →
        shopifyPlanToInternal p = some pl →
        resolvedPlanOf (some BASIC_PLAN) BillingQueryOutcome.failed = some pl)
    ∧ planFromQuery (.ok []) = some "freemium"
    ∧ (∀ nm stt rest, nm ≠ BASIC_PLAN → nm ≠ PREMIUM_PLAN →
        planFromQuery (.ok ((nm, stt) :: rest)) = some "freemium")
    ∧ (((some BASIC_PLAN : Option String) = none
        ∨ (some BASIC_PLAN : Option String) = some ""
        ∨ (∃ p, (some BASIC_PLAN : Option String) = some p
            ∧ shopifyPlanToInternal p = none)) →
        resolvedPlanOf (some BASIC_PLAN) BillingQueryOutcome.failed
          = planFromQuery BillingQueryOutcome.failed)
    ∧ (findStoreByShopUrl projStore "acme.example" = none →
        (billingCallbackLoader projStore (some "acme.example") (some BASIC_PLAN)
          BillingQueryOutcome.failed).2 = projStore)
    ∧ (∀ pl sr,
        resolvedPlanOf (some BASIC_PLAN) BillingQueryOutcome.failed = some pl →
        findStoreByShopUrl projStore "acme.example" = some sr →
        (billingCallbackLoader projStore (some "acme.example") (some BASIC_PLAN)
          BillingQueryOutcome.failed).2 = updateStorePlan projStore sr.dbName pl) :=
  billing_callback_plan_resolution projStore "acme.example" (some BASIC_PLAN)
    BillingQueryOutcome.failed (by decide)

/-- C7: after `offboard`, no session for the shop remains and re-running on
an already-clean tenant is a no-op; but with two historical AppDataRecords
only the single record found by `findEComDataByShop` (`docs[0]`) is
deleted — the other record survives and its key still resolves
successfully, refuting "all historical records are purged / every
previously issued access key fails resolve with InvalidCredential". -/
theorem offboard_leaves_older_appdata_record :
    findSessionsByShop (offboard offStore "acme.example") "acme.example" = []
    ∧ offboard emptyExtStore "acme.example" = emptyExtStore
    ∧ offRec1.data.shop = "acme.example"
    ∧ offRec2.data.shop = "acme.example"
    ∧ findEComDataByKey offStore "k2" = some offRec2
    ∧ findEComDataByKey (offboard offStore "acme.example") "k1" = none
    ∧ findEComDataByKey (offboard offStore "acme.example") "k2" = some offRec2
    ∧ resolveAction (offboard offStore "acme.example") (some "k2")
      = .success ⟨"acme.example", some "db-acme", none, none, none,
                  "freemium", "basic", false⟩
    ∧ resolveAction (offboard offStore "acme.example") (some "k2")
      ≠ .invalidKey := by decide

/-- C9: multi-tenant isolation — a successful resolve answers exactly the
fields of the AppDataRecord whose key matches the presented key, and a
successful ticket exchange answers exactly the merchant config of the shop
bound to the presented ticket: no call answers data of a different shop. -/
theorem tenant_isolation_resolve_and_exchange :
    (∀ (st : ExtStore) (k : String) (p : ResolvePayload),
        resolveAction st (some k) = .success p →
        ∃ r, findEComDataByKey st k = some r ∧ r.key = k
          ∧ p.shop = r.data.shop ∧ p.accessToken = r.data.accessToken
          ∧ p.apiKey = r.data.apiKey ∧ p.email = r.data.email)
    ∧ (∀ (st : TicketStore) (now : Nat) (body : Option String)
        (sh tok api : String) (bd : Option String) (st2 : TicketStore),
        exchangeAction st now body = (.success sh tok api bd, st2) →
        ∃ t r c, body = some t ∧ ticketLookup st t = some r
          ∧ configLookup st r.shop = some c ∧ c.shop = r.shop
          ∧ sh = c.shop ∧ tok = c.accessToken ∧ api = c.apiKey
          ∧ bd = c.builderData) := by
  constructor
  · intro st k p h
    unfold resolveAction at h
    dsimp only at h
    by_cases hk : k = ""
    · rw [if_pos hk] at h
      exact ResolveResult.noConfusion h
    · rw [if_neg hk] at h
      cases hfind : findEComDataByKey st k with
      | none =>
        rw [hfind] at h
        exact ResolveResult.noConfusion h
      | some r =>
        rw [hfind] at h
        dsimp only at h
        injection h with h
        have hf : st.ecomData.find? (fun d => d.key == k) = some r := hfind
        have hkey : r.key = k := by
          have hb := List.find?_some hf
          simp at hb
          exact hb
        refine ⟨r, rfl, hkey, ?_, ?_, ?_, ?_⟩
        · rw [← h]
        · rw [← h]
        · rw [← h]
        · rw [← h]
  · intro st now body sh tok api bd st2 h
    cases body with
    | none =>
      unfold exchangeAction at h
      injection h with h1 _
      exact ExchangeResult.noConfusion h1
    | some t =>
      unfold exchangeAction at h
      dsimp only at h
      by_cases ht : t = ""
      · rw [if_pos ht] at h
        injection h with h1 _
        exact ExchangeResult.noConfusion h1
      · rw [if_neg ht] at h
        cases hfind : ticketLookup st t with
        | none =>
          rw [hfind] at h
          injection h with h1 _
          exact ExchangeResult.noConfusion h1
        | some r =>
          rw [hfind] at h
          dsimp only at h
          by_cases hu : r.used = true
          · rw [if_pos hu] at h
            injection h with h1 _
            exact ExchangeResult.noConfusion h1
          · rw [if_neg hu] at h
            by_cases he : r.expiresAt < now
            · rw [if_pos he] at h
              injection h with h1 _
              exact ExchangeResult.noConfusion h1
            · rw [if_neg he] at h
              rw [configLookup_markUsed] at h
              cases hcfg : configLookup st r.shop with
              | none =>
                rw [hcfg] at h
                injection h with h1 _
                exact ExchangeResult.noConfusion h1
              | some c =>
                rw [hcfg] at h
                injection h with h1 _
                injection h1 with e1 e2 e3 e4
                have hfc : st.configs.find? (fun x => x.shop == r.shop) = some c := hcfg
                have hcs : c.shop = r.shop := by
                  have hb := List.find?_some hfc
                  simp at hb
                  exact hb
                exact ⟨t, r, c, rfl, hfind, hcfg, hcs,
                  e1.symm, e2.symm, e3.symm, e4.symm⟩

/-- C9 witness: the resolve half of the isolation theorem applied at
`isoStore`. -/
theorem tenant_isolation_resolve_and_exchange_witness :
    ∃ r, findEComDataByKey isoStore "k1" = some r ∧ r.key = "k1"
      ∧ ("acme.example" : String) = r.data.shop
      ∧ (some "tok" : Option String) = r.data.accessToken
      ∧ (some "api" : Option String) = r.data.apiKey
      ∧ (some "a@acme.example" : Option String) = r.data.email :=
  tenant_isolation_resolve_and_exchange.1 isoStore "k1"
    ⟨"acme.example", none, some "tok", some "api", some "a@acme.example",
     "basic", "freemium", true⟩ (by decide)

end Spec2Proof
